import Mathlib

/-!
Verification of the authentication/session slice of the isucon13 webapp
(`src/webapp/go/user_handler.go`), shallowly embedded in Lean 4.

Times are UNIX seconds (`Int`, matching Go's `time.Time.Unix`); the
cryptographic digest `fmt.Sprintf("%x", sha512.Sum512(...))` is abstracted
as a `String → String` parameter, since its implementation lives in the Go
standard library.
-/

namespace Isupipe

/-- `User` struct from `user_handler.go` (db rows and JSON bodies share it).
`Password` holds the hex digest of the plaintext password. -/
structure User where
  id : Nat
  name : String
  displayName : String
  description : String
  password : String
  createdAt : Int
  updatedAt : Int
deriving DecidableEq, Repr

/-- `Session` struct: session row with UUID id, owning user, UNIX expiry. -/
structure Session where
  id : String
  userId : Nat
  expires : Int
deriving DecidableEq, Repr

/-- `PostUserRequest`: body of `POST /user`; `password` is the plaintext. -/
structure PostUserRequest where
  name : String
  displayName : String
  description : String
  password : String
deriving DecidableEq, Repr

/-- `LoginRequest`: body of `POST /login`. -/
structure LoginRequest where
  username : String
  password : String
deriving DecidableEq, Repr

/-- An `echo.NewHTTPError(status, message)` value. -/
structure HTTPError where
  status : Nat
  message : String
deriving DecidableEq, Repr

/-- The session cookie issued by `loginHandler` (`sess.Options` plus the
stored value under the `SESSIONID` key). -/
structure Cookie where
  name : String
  value : String
  path : String
  maxAge : Nat
deriving DecidableEq, Repr

/-- Database state: the `users` and `sessions` tables. -/
structure DB where
  users : List User
  sessions : List Session
deriving DecidableEq, Repr

/-- Outcome of a handler: an HTTP success status with a body, or an
`echo.HTTPError`. -/
inductive HandlerResult (α : Type) where
  | ok (status : Nat) (body : α)
  | fail (e : HTTPError)
deriving DecidableEq, Repr

/-- Modelled from the spec: the persisted schema (missing from `src/`)
declares `users(id, name UNIQUE, display_name, description, password,
created_at, updated_at)` with `id` generated by the store and the
timestamps assigned by the store on insert; inserting a duplicate `name`
violates the unique constraint and is a storage error. -/
def dbInsertUser (db : DB) (nextId : Nat) (now : Int) (u : User) : Except String DB :=
  if db.users.any (fun v => v.name == u.name) then
    Except.error "Error 1062: Duplicate entry"
  else
    Except.ok { db with
      users := db.users ++ [{ u with id := nextId, createdAt := now, updatedAt := now }] }

/-- Modelled from the spec: the persisted schema (missing from `src/`)
declares `sessions(id PK, user_id, expires)`; inserting a duplicate
primary key is a storage error. -/
def dbInsertSession (db : DB) (s : Session) : Except String DB :=
  if db.sessions.any (fun t => t.id == s.id) then
    Except.error "Error 1062: Duplicate entry"
  else
    Except.ok { db with sessions := db.sessions ++ [s] }

/-- `SELECT * FROM users WHERE name = ?` via `tx.GetContext`: the first
matching row, or the driver's no-rows error surfaced as `none`. -/
def findUserByName (db : DB) (name : String) : Option User :=
  db.users.find? (fun u => u.name == name)

/-- `SELECT user_id, expires FROM sessions where id = ?` before projection:
the row whose id matches. -/
def findSessionById (db : DB) (sid : String) : Option Session :=
  db.sessions.find? (fun s => s.id == sid)

/-- The `SELECT user_id, expires` projection: the scanned `Session` struct
keeps the Go zero value `""` in its `ID` field. -/
def sessionLookupProjection (s : Session) : Session :=
  { id := "", userId := s.userId, expires := s.expires }

/-- Modelled from the spec: the persisted schema (missing from `src/`)
defines only the tables `users` and `sessions`, so a DELETE naming any
other table is a storage error; against `sessions` it removes the rows
with the given id. -/
def dbExecDelete (db : DB) (table : String) (sid : String) : Except String DB :=
  if table == "sessions" then
    Except.ok { db with sessions := db.sessions.filter (fun s => s.id != sid) }
  else
    Except.error ("Table " ++ table ++ " does not exist")

/-- `SELECT name, display_name, description, created_at, updated_at` into a
`User` struct: the unselected `ID` and `Password` fields keep Go zero
values. -/
def userProfileView (u : User) : User :=
  { id := 0, name := u.name, displayName := u.displayName,
    description := u.description, password := "",
    createdAt := u.createdAt, updatedAt := u.updatedAt }

/-- `encoding/json` marshalling of `User`: the struct has no json tags, so
every exported field is serialized under its Go name, `Password` included. -/
def userJSONFields (u : User) : List (String × String) :=
  [("ID", toString u.id), ("Name", u.name), ("DisplayName", u.displayName),
   ("Description", u.description), ("Password", u.password),
   ("CreatedAt", toString u.createdAt), ("UpdatedAt", toString u.updatedAt)]

/-- `userRegisterHandler` (`POST /user`). `body = none` models a JSON
decode failure; `nextId` and `now` are the id and timestamp the store
would assign. The transaction rolls back on insert failure, leaving the
pre-transaction state. -/
def userRegisterHandler (digest : String → String) (db : DB) (nextId : Nat) (now : Int)
    (body : Option PostUserRequest) : HandlerResult (List (String × String)) × DB :=
  match body with
  | none => (HandlerResult.fail ⟨400, "failed to decode the request body as json"⟩, db)
  | some req =>
    let hashedPassword := digest req.password
    let user : User :=
      { id := 0, name := req.name, displayName := req.displayName,
        description := req.description, password := hashedPassword,
        createdAt := 0, updatedAt := 0 }
    match dbInsertUser db nextId now user with
    | Except.error e => (HandlerResult.fail ⟨500, e⟩, db)
    | Except.ok db2 => (HandlerResult.ok 201 (userJSONFields user), db2)

/-- `loginHandler` (`POST /login`). `newSessionId` is the freshly drawn
`uuid.NewString()`; on success the issued session cookie is returned and
the session row committed. A failed user lookup (the no-rows case
included) surfaces as a 500 with the driver error text. -/
def loginHandler (digest : String → String) (db : DB) (now : Int) (newSessionId : String)
    (body : Option LoginRequest) : HandlerResult Cookie × DB :=
  match body with
  | none => (HandlerResult.fail ⟨400, "failed to decode the request body as json"⟩, db)
  | some req =>
    match findUserByName db req.username with
    | none => (HandlerResult.fail ⟨500, "sql: no rows in result set"⟩, db)
    | some user =>
      let hashedPassword := digest req.password
      if req.username != user.name || hashedPassword != user.password then
        (HandlerResult.fail ⟨401, "invalid username or password"⟩, db)
      else
        let sessionEndAt := now + 10 * 60
        let userSession : Session :=
          { id := newSessionId, userId := user.id, expires := sessionEndAt }
        match dbInsertSession db userSession with
        | Except.error e => (HandlerResult.fail ⟨500, e⟩, db)
        | Except.ok db2 =>
          (HandlerResult.ok 200
            { name := "SESSIONID", value := userSession.id, path := "/", maxAge := 600 }, db2)

/-- `userHandler` (`GET /user/:user_id`). `cookieSessionId` is the value
stored under the `SESSIONID` cookie key, if present; `pathUserId` the path
parameter. The expired-session branch runs
`DELETE FROM sessoins WHERE id = :id` and ignores its error. -/
def userHandler (db : DB) (now : Int) (cookieSessionId : Option String) (pathUserId : Nat) :
    HandlerResult (List (String × String)) × DB :=
  match cookieSessionId with
  | none => (HandlerResult.fail ⟨403, ""⟩, db)
  | some sessionID =>
    match findSessionById db sessionID with
    | none => (HandlerResult.fail ⟨403, ""⟩, db)
    | some found =>
      let userSession := sessionLookupProjection found
      if now > userSession.expires then
        match dbExecDelete db "sessoins" userSession.id with
        | Except.error _ => (HandlerResult.fail ⟨401, "session has expired"⟩, db)
        | Except.ok db2 => (HandlerResult.fail ⟨401, "session has expired"⟩, db2)
      else
        match db.users.find? (fun u => u.id == pathUserId) with
        | none => (HandlerResult.fail ⟨401, "session has expired"⟩, db)
        | some user => (HandlerResult.ok 200 (userJSONFields (userProfileView user)), db)

/-- Invariant of the Credential Store: all user names are distinct. -/
def namesUnique (db : DB) : Prop :=
  db.users.Pairwise (fun u v => u.name ≠ v.name)

/-- A concrete stand-in for the hex digest, used by closed witnesses. -/
def demoDigest : String → String := fun s => "digest-of-" ++ s

/-- Concrete user record for witnesses. -/
def aliceUser : User :=
  { id := 1, name := "alice", displayName := "Alice", description := "",
    password := demoDigest "pw", createdAt := 100, updatedAt := 100 }

/-- Concrete store holding one user and one session for witnesses. -/
def demoDB : DB :=
  { users := [aliceUser],
    sessions := [{ id := "sid-a", userId := 1, expires := 2000 }] }

/-- Concrete store holding two users, each with a live session, for
witnesses. -/
def twoSessionDB : DB :=
  { users := [aliceUser,
      { id := 2, name := "bob", displayName := "Bob", description := "",
        password := demoDigest "pw2", createdAt := 200, updatedAt := 200 }],
    sessions := [{ id := "sid-a", userId := 1, expires := 2000 },
      { id := "sid-b", userId := 2, expires := 3000 }] }

/-- The body of a handler outcome, when it is a success. -/
def responseBody {α : Type} : HandlerResult α → Option α
  | HandlerResult.ok _ b => some b
  | HandlerResult.fail _ => none

/-- The registration request used by the pretest scenario
(`src/bench/scenario/core_pretest.go`). -/
def testReq : PostUserRequest :=
  { name := "test", displayName := "test", description := "blah blah blah",
    password := "s3cr3t" }

/-! Helper lemmas shared by several claims. -/

/-- A register with a name no stored user carries inserts the row with the
store-assigned id and timestamps and answers 201 with the pre-insert
struct (zero id and timestamps) serialized. -/
lemma userRegisterHandler_fresh (digest : String → String) (db : DB) (nextId : Nat)
    (now : Int) (req : PostUserRequest) (h : ∀ v ∈ db.users, v.name ≠ req.name) :
    userRegisterHandler digest db nextId now (some req)
      = (HandlerResult.ok 201 (userJSONFields
          { id := 0, name := req.name, displayName := req.displayName,
            description := req.description, password := digest req.password,
            createdAt := 0, updatedAt := 0 }),
         { users := db.users ++
            [{ id := nextId, name := req.name, displayName := req.displayName,
               description := req.description, password := digest req.password,
               createdAt := now, updatedAt := now }],
           sessions := db.sessions }) := by
  have hany : (db.users.any fun v => v.name == req.name) = false := by
    simp only [List.any_eq_false, beq_iff_eq]
    exact h
  unfold userRegisterHandler dbInsertUser
  dsimp only
  rw [hany]
  rfl

/-- The expired-session branch of `userHandler` answers 401. -/
lemma userHandler_expired_fail (db : DB) (now : Int) (sid : String) (s : Session)
    (uid : Nat) (hfind : findSessionById db sid = some s) (hexp : now > s.expires) :
    (userHandler db now (some sid) uid).1
      = HandlerResult.fail ⟨401, "session has expired"⟩ := by
  unfold userHandler
  dsimp only
  rw [hfind]
  dsimp only [sessionLookupProjection]
  rw [if_pos hexp]
  rfl

/-- `userHandler` never changes the database, whichever branch runs. -/
lemma userHandler_db_eq (db : DB) (now : Int) (tok : Option String) (uid : Nat) :
    (userHandler db now tok uid).2 = db := by
  unfold userHandler
  cases tok with
  | none => rfl
  | some sid =>
    dsimp only
    cases h : findSessionById db sid with
    | none => rfl
    | some s =>
      dsimp only
      split
      · rfl
      · cases hf : db.users.find? (fun u => u.id == uid) with
        | none => rfl
        | some u => rfl

/-- `loginHandler` never changes the `users` table. -/
lemma loginHandler_users_eq (digest : String → String) (db : DB) (now : Int)
    (sid : String) (body : Option LoginRequest) :
    ((loginHandler digest db now sid body).2).users = db.users := by
  unfold loginHandler
  cases body with
  | none => rfl
  | some req =>
    dsimp only
    cases h : findUserByName db req.username with
    | none => rfl
    | some user =>
      dsimp only
      split
      · rfl
      · dsimp only [dbInsertSession]
        by_cases hc : (db.sessions.any fun t => t.id == sid) = true
        · rw [if_pos hc]
        · rw [if_neg hc]

/-- C1: the claim fails on the code at a concrete input: with only user
`alice` in the store, a login naming unknown user `bob` fails with status
500 (the surfaced lookup error), while a wrong password for `alice` fails
with status 401; the two outcomes differ, revealing that `alice` exists. -/
theorem C1_counterexample :
    (loginHandler demoDigest demoDB 1000 "sid-new"
        (some { username := "bob", password := "pw" })).1
      = HandlerResult.fail ⟨500, "sql: no rows in result set"⟩ ∧
    (loginHandler demoDigest demoDB 1000 "sid-new"
        (some { username := "alice", password := "wrong" })).1
      = HandlerResult.fail ⟨401, "invalid username or password"⟩ ∧
    HandlerResult.fail (α := Cookie) ⟨500, "sql: no rows in result set"⟩
      ≠ HandlerResult.fail ⟨401, "invalid username or password"⟩ := by
  exact ⟨by decide, by decide, by decide⟩

/-- C1 (amended): a login whose username names no existing user fails with
`InternalError` (500, the surfaced lookup error), while a login whose user
lookup succeeds but whose password digest mismatches fails with
`Unauthorized` (401); the failure outcomes differ between the two cases. -/
theorem C1_login_failure_modes (digest : String → String) (db : DB) (now : Int)
    (sid : String) (req : LoginRequest) :
    (findUserByName db req.username = none →
      (loginHandler digest db now sid (some req)).1
        = HandlerResult.fail ⟨500, "sql: no rows in result set"⟩) ∧
    (∀ user, findUserByName db req.username = some user →
      digest req.password ≠ user.password →
      (loginHandler digest db now sid (some req)).1
        = HandlerResult.fail ⟨401, "invalid username or password"⟩) := by
  constructor
  · intro h
    unfold loginHandler
    dsimp only
    rw [h]
  · intro user h hpw
    unfold loginHandler
    dsimp only
    rw [h]
    dsimp only
    have hb : (digest req.password != user.password) = true := by
      simpa [bne_iff_ne] using hpw
    rw [hb, Bool.or_true]
    rfl

/-- C1 (amended) witness at concrete inputs. -/
theorem C1_login_failure_modes_witness :
    (loginHandler demoDigest demoDB 1000 "sid-new"
        (some { username := "bob", password := "pw" })).1
      = HandlerResult.fail ⟨500, "sql: no rows in result set"⟩ ∧
    (loginHandler demoDigest demoDB 1000 "sid-new"
        (some { username := "alice", password := "nope" })).1
      = HandlerResult.fail ⟨401, "invalid username or password"⟩ :=
  ⟨(C1_login_failure_modes demoDigest demoDB 1000 "sid-new"
      { username := "bob", password := "pw" }).1 (by decide),
   (C1_login_failure_modes demoDigest demoDB 1000 "sid-new"
      { username := "alice", password := "nope" }).2 aliceUser (by decide) (by decide)⟩

/-- C2: the claim fails at a concrete input: registering the pretest user
into an empty store with store-assigned id 7 and timestamp 1234 stores the
row with id 7 and createdAt 1234, yet the response body reports ID "0" and
CreatedAt "0" — the pre-insert zero values, not the generated ones. -/
theorem C2_counterexample :
    (userRegisterHandler demoDigest { users := [], sessions := [] } 7 1234
        (some testReq)).2.users.map (fun u => (u.id, u.createdAt)) = [(7, 1234)] ∧
    (responseBody (userRegisterHandler demoDigest { users := [], sessions := [] } 7 1234
        (some testReq)).1).map (fun fs => fs.lookup "ID") = some (some "0") ∧
    (responseBody (userRegisterHandler demoDigest { users := [], sessions := [] } 7 1234
        (some testReq)).1).map (fun fs => fs.lookup "CreatedAt") = some (some "0") ∧
    ("0" : String) ≠ "7" ∧ ("0" : String) ≠ "1234" := by
  exact ⟨by decide, by decide, by decide, by decide, by decide⟩

/-- C2 (amended): a successful register answers 201 with the serialization
of the pre-insert record — the submitted fields plus the password digest,
with id and both timestamps still at their zero values — while the stored
row alone carries the store-generated id and the store's timestamps. -/
theorem C2_register_response (digest : String → String) (db : DB) (nextId : Nat)
    (now : Int) (req : PostUserRequest) (h : ∀ v ∈ db.users, v.name ≠ req.name) :
    (userRegisterHandler digest db nextId now (some req)).1
      = HandlerResult.ok 201 (userJSONFields
          { id := 0, name := req.name, displayName := req.displayName,
            description := req.description, password := digest req.password,
            createdAt := 0, updatedAt := 0 }) ∧
    (userRegisterHandler digest db nextId now (some req)).2.users
      = db.users ++
          [{ id := nextId, name := req.name, displayName := req.displayName,
             description := req.description, password := digest req.password,
             createdAt := now, updatedAt := now }] := by
  rw [userRegisterHandler_fresh digest db nextId now req h]
  exact ⟨rfl, rfl⟩

/-- C2 (amended) witness at concrete inputs. -/
theorem C2_register_response_witness :
    (userRegisterHandler demoDigest { users := [], sessions := [] } 7 1234
        (some testReq)).1
      = HandlerResult.ok 201 (userJSONFields
          { id := 0, name := testReq.name, displayName := testReq.displayName,
            description := testReq.description, password := demoDigest testReq.password,
            createdAt := 0, updatedAt := 0 }) ∧
    (userRegisterHandler demoDigest { users := [], sessions := [] } 7 1234
        (some testReq)).2.users
      = ({ users := [], sessions := [] } : DB).users ++
          [{ id := 7, name := testReq.name, displayName := testReq.displayName,
             description := testReq.description, password := demoDigest testReq.password,
             createdAt := 1234, updatedAt := 1234 }] :=
  C2_register_response demoDigest { users := [], sessions := [] } 7 1234 testReq
    (by decide)

/-- C3: a session token found in the store whose expiry lies strictly in
the past makes `userHandler` attempt the session delete (an attempt that
returns a storage error), swallow that error, and fail with 401 "session
has expired", leaving the database unchanged. -/
theorem C3_expired_session (db : DB) (now : Int) (sid : String) (s : Session)
    (uid : Nat) (hfind : findSessionById db sid = some s) (hexp : now > s.expires) :
    (userHandler db now (some sid) uid).1
      = HandlerResult.fail ⟨401, "session has expired"⟩ ∧
    (∃ e, dbExecDelete db "sessoins" (sessionLookupProjection s).id = Except.error e) ∧
    (userHandler db now (some sid) uid).2 = db :=
  ⟨userHandler_expired_fail db now sid s uid hfind hexp,
   ⟨"Table sessoins does not exist", rfl⟩,
   userHandler_db_eq db now (some sid) uid⟩

/-- C3 witness at concrete inputs: session "sid-a" expires at 2000, the
call happens at 5000. -/
theorem C3_expired_session_witness :
    (userHandler demoDB 5000 (some "sid-a") 1).1
      = HandlerResult.fail ⟨401, "session has expired"⟩ ∧
    (∃ e, dbExecDelete demoDB "sessoins"
        (sessionLookupProjection { id := "sid-a", userId := 1, expires := 2000 }).id
        = Except.error e) ∧
    (userHandler demoDB 5000 (some "sid-a") 1).2 = demoDB :=
  C3_expired_session demoDB 5000 "sid-a" { id := "sid-a", userId := 1, expires := 2000 }
    1 (by decide) (by decide)

/-- C4: with two sessions both present and unexpired, owned by different
users, `userHandler` gives the same answer for the same path-supplied user
id under either session: the fetched profile depends on the path parameter
only, not on the authenticating session. -/
theorem C4_profile_by_path_only (db : DB) (now : Int) (sid1 sid2 : String)
    (s1 s2 : Session) (uid : Nat)
    (h1 : findSessionById db sid1 = some s1) (h2 : findSessionById db sid2 = some s2)
    (hv1 : ¬now > s1.expires) (hv2 : ¬now > s2.expires)
    (_hdiff : s1.userId ≠ s2.userId) :
    (userHandler db now (some sid1) uid).1 = (userHandler db now (some sid2) uid).1 := by
  unfold userHandler
  dsimp only
  rw [h1, h2]
  dsimp only [sessionLookupProjection]
  rw [if_neg hv1, if_neg hv2]

/-- C4 witness at concrete inputs: two live sessions of users 1 and 2. -/
theorem C4_profile_by_path_only_witness :
    (userHandler twoSessionDB 1000 (some "sid-a") 1).1
      = (userHandler twoSessionDB 1000 (some "sid-b") 1).1 :=
  C4_profile_by_path_only twoSessionDB 1000 "sid-a" "sid-b"
    { id := "sid-a", userId := 1, expires := 2000 }
    { id := "sid-b", userId := 2, expires := 3000 }
    1 (by decide) (by decide) (by decide) (by decide) (by decide)

/-- C5: a request with no session token and a request whose token no stored
session carries both fail with 403 and an empty message, the two outcomes
being identical. -/
theorem C5_missing_or_unknown_token (db : DB) (now : Int) (sid : String) (uid : Nat)
    (h : findSessionById db sid = none) :
    (userHandler db now none uid).1 = HandlerResult.fail ⟨403, ""⟩ ∧
    (userHandler db now (some sid) uid).1 = HandlerResult.fail ⟨403, ""⟩ ∧
    (userHandler db now none uid).1 = (userHandler db now (some sid) uid).1 := by
  have h2 : (userHandler db now (some sid) uid).1 = HandlerResult.fail ⟨403, ""⟩ := by
    unfold userHandler
    dsimp only
    rw [h]
  exact ⟨rfl, h2, h2.symm⟩

/-- C5 witness at concrete inputs: no cookie, and a token absent from the
store. -/
theorem C5_missing_or_unknown_token_witness :
    (userHandler demoDB 1000 none 1).1 = HandlerResult.fail ⟨403, ""⟩ ∧
    (userHandler demoDB 1000 (some "sid-z") 1).1 = HandlerResult.fail ⟨403, ""⟩ ∧
    (userHandler demoDB 1000 none 1).1 = (userHandler demoDB 1000 (some "sid-z") 1).1 :=
  C5_missing_or_unknown_token demoDB 1000 "sid-z" 1 (by decide)

/-- C6: a successful login at time `now` (user found, name and digest both
matching, fresh session id) inserts a session row expiring at
`now + 600` seconds (10 minutes) and answers with the session cookie under
the fixed key, path "/" and max-age 600. -/
theorem C6_session_expiry_and_cookie (digest : String → String) (db : DB) (now : Int)
    (sid : String) (req : LoginRequest) (user : User)
    (hfind : findUserByName db req.username = some user)
    (hname : req.username = user.name)
    (hpw : digest req.password = user.password)
    (hfresh : ∀ t ∈ db.sessions, t.id ≠ sid) :
    (loginHandler digest db now sid (some req)).1
      = HandlerResult.ok 200
          { name := "SESSIONID", value := sid, path := "/", maxAge := 600 } ∧
    (loginHandler digest db now sid (some req)).2.sessions
      = db.sessions ++ [{ id := sid, userId := user.id, expires := now + 600 }] := by
  have hcond : (req.username != user.name || digest req.password != user.password)
      = false := by
    simp [hname, hpw]
  have hany : (db.sessions.any fun t => t.id == sid) = false := by
    simp only [List.any_eq_false, beq_iff_eq]
    exact hfresh
  unfold loginHandler
  dsimp only
  rw [hfind]
  dsimp only
  rw [hcond]
  dsimp only [dbInsertSession]
  rw [hany]
  norm_num

/-- C6 witness at concrete inputs. -/
theorem C6_session_expiry_and_cookie_witness :
    (loginHandler demoDigest demoDB 1000 "sid-new"
        (some { username := "alice", password := "pw" })).1
      = HandlerResult.ok 200
          { name := "SESSIONID", value := "sid-new", path := "/", maxAge := 600 } ∧
    (loginHandler demoDigest demoDB 1000 "sid-new"
        (some { username := "alice", password := "pw" })).2.sessions
      = demoDB.sessions ++ [{ id := "sid-new", userId := aliceUser.id, expires := 1000 + 600 }] :=
  C6_session_expiry_and_cookie demoDigest demoDB 1000 "sid-new"
    { username := "alice", password := "pw" } aliceUser
    (by decide) (by decide) (by decide) (by decide)

/-- C7: once the user lookup succeeds, login compares the digest of the
submitted password against the stored hash and re-checks the submitted
username against the stored name: any mismatch yields 401 "invalid
username or password", and when both match the handler never yields that
401. -/
theorem C7_login_credential_check (digest : String → String) (db : DB) (now : Int)
    (sid : String) (req : LoginRequest) (user : User)
    (hfind : findUserByName db req.username = some user) :
    ((req.username ≠ user.name ∨ digest req.password ≠ user.password) →
      (loginHandler digest db now sid (some req)).1
        = HandlerResult.fail ⟨401, "invalid username or password"⟩) ∧
    (req.username = user.name → digest req.password = user.password →
      (loginHandler digest db now sid (some req)).1
        ≠ HandlerResult.fail ⟨401, "invalid username or password"⟩) := by
  constructor
  · intro hmis
    unfold loginHandler
    dsimp only
    rw [hfind]
    dsimp only
    have hcond : (req.username != user.name || digest req.password != user.password)
        = true := by
      rcases hmis with hm | hm <;> simp [bne_iff_ne, hm]
    rw [hcond]
    rfl
  · intro hname hpw
    unfold loginHandler
    dsimp only
    rw [hfind]
    dsimp only
    have hcond : (req.username != user.name || digest req.password != user.password)
        = false := by
      simp [hname, hpw]
    rw [hcond]
    dsimp only [dbInsertSession]
    by_cases hc : (db.sessions.any fun t => t.id == sid) = true
    · rw [if_pos hc]
      intro hcontra
      have := HandlerResult.fail.inj hcontra
      simp at this
    · rw [if_neg hc]
      intro hcontra
      exact HandlerResult.noConfusion hcontra

/-- C7 witness at concrete inputs: wrong password fails with 401, right
password does not. -/
theorem C7_login_credential_check_witness :
    (loginHandler demoDigest demoDB 1000 "sid-new"
        (some { username := "alice", password := "bad" })).1
      = HandlerResult.fail ⟨401, "invalid username or password"⟩ ∧
    (loginHandler demoDigest demoDB 1000 "sid-new"
        (some { username := "alice", password := "pw" })).1
      ≠ HandlerResult.fail ⟨401, "invalid username or password"⟩ :=
  ⟨(C7_login_credential_check demoDigest demoDB 1000 "sid-new"
      { username := "alice", password := "bad" } aliceUser (by decide)).1
      (Or.inr (by decide)),
   (C7_login_credential_check demoDigest demoDB 1000 "sid-new"
      { username := "alice", password := "pw" } aliceUser (by decide)).2
      (by decide) (by decide)⟩

/-- C8: a register naming an already-stored user fails with the duplicate
storage error and leaves the store untouched, and every operation —
register with any body, login, profile fetch — preserves distinctness of
the stored user names. -/
theorem C8_name_uniqueness (digest : String → String) :
    (∀ (db : DB) (nextId : Nat) (now : Int) (req : PostUserRequest) (u : User),
      u ∈ db.users → u.name = req.name →
      (userRegisterHandler digest db nextId now (some req)).1
        = HandlerResult.fail ⟨500, "Error 1062: Duplicate entry"⟩ ∧
      (userRegisterHandler digest db nextId now (some req)).2 = db) ∧
    (∀ (db : DB) (nextId : Nat) (now : Int) (body : Option PostUserRequest),
      namesUnique db → namesUnique (userRegisterHandler digest db nextId now body).2) ∧
    (∀ (db : DB) (now : Int) (sid : String) (body : Option LoginRequest),
      namesUnique db → namesUnique (loginHandler digest db now sid body).2) ∧
    (∀ (db : DB) (now : Int) (tok : Option String) (uid : Nat),
      namesUnique db → namesUnique (userHandler db now tok uid).2) := by
  refine ⟨?_, ?_, ?_, ?_⟩
  · intro db nextId now req u hu hname
    have hany : (db.users.any fun v => v.name == req.name) = true := by
      simp only [List.any_eq_true]
      exact ⟨u, hu, by simp [hname]⟩
    unfold userRegisterHandler dbInsertUser
    dsimp only
    rw [hany]
    exact ⟨rfl, rfl⟩
  · intro db nextId now body hdb
    cases body with
    | none => exact hdb
    | some req =>
      unfold userRegisterHandler dbInsertUser
      dsimp only
      by_cases hc : (db.users.any fun v => v.name == req.name) = true
      · rw [if_pos hc]
        exact hdb
      · rw [if_neg hc]
        unfold namesUnique at hdb ⊢
        dsimp only
        rw [List.pairwise_append]
        refine ⟨hdb, List.pairwise_singleton _ _, ?_⟩
        intro a ha b hb
        simp only [List.mem_singleton] at hb
        subst hb
        intro hcontra
        exact hc (List.any_eq_true.mpr ⟨a, ha, by simp [hcontra]⟩)
  · intro db now sid body hdb
    unfold namesUnique at hdb ⊢
    rw [loginHandler_users_eq]
    exact hdb
  · intro db now tok uid hdb
    unfold namesUnique at hdb ⊢
    rw [userHandler_db_eq]
    exact hdb

/-- C8 witness at concrete inputs: re-registering the name "alice" fails
and leaves the store unchanged, and a fresh register keeps the names
distinct. -/
theorem C8_name_uniqueness_witness :
    ((userRegisterHandler demoDigest demoDB 2 50
        (some { name := "alice", displayName := "A2", description := "x",
                password := "pw2" })).1
      = HandlerResult.fail ⟨500, "Error 1062: Duplicate entry"⟩ ∧
     (userRegisterHandler demoDigest demoDB 2 50
        (some { name := "alice", displayName := "A2", description := "x",
                password := "pw2" })).2 = demoDB) ∧
    namesUnique (userRegisterHandler demoDigest demoDB 2 50
        (some { name := "carol", displayName := "C", description := "y",
                password := "pw3" })).2 :=
  ⟨(C8_name_uniqueness demoDigest).1 demoDB 2 50
      { name := "alice", displayName := "A2", description := "x", password := "pw2" }
      aliceUser (by exact List.mem_singleton.mpr rfl) rfl,
   (C8_name_uniqueness demoDigest).2.1 demoDB 2 50
      (some { name := "carol", displayName := "C", description := "y", password := "pw3" })
      (by unfold namesUnique; exact List.pairwise_singleton _ _)⟩

/-- C9: `userHandler` leaves the database unchanged in every branch, and on
the expired-session branch in particular it answers 401 while the expired
session row is still found by a lookup against the post-call state. -/
theorem C9_authenticate_frame (db : DB) (now : Int) (tok : Option String) (uid : Nat) :
    (userHandler db now tok uid).2 = db ∧
    (∀ sid s, findSessionById db sid = some s → now > s.expires →
      (userHandler db now (some sid) uid).1
        = HandlerResult.fail ⟨401, "session has expired"⟩ ∧
      findSessionById (userHandler db now (some sid) uid).2 sid = some s) := by
  refine ⟨userHandler_db_eq db now tok uid, ?_⟩
  intro sid s hfind hexp
  refine ⟨userHandler_expired_fail db now sid s uid hfind hexp, ?_⟩
  rw [userHandler_db_eq]
  exact hfind

/-- C9 witness at concrete inputs: the expired session "sid-a" survives the
rejected call. -/
theorem C9_authenticate_frame_witness :
    (userHandler demoDB 5000 (some "sid-a") 1).2 = demoDB ∧
    ((userHandler demoDB 5000 (some "sid-a") 1).1
        = HandlerResult.fail ⟨401, "session has expired"⟩ ∧
      findSessionById (userHandler demoDB 5000 (some "sid-a") 1).2 "sid-a"
        = some { id := "sid-a", userId := 1, expires := 2000 }) :=
  ⟨(C9_authenticate_frame demoDB 5000 (some "sid-a") 1).1,
   (C9_authenticate_frame demoDB 5000 (some "sid-a") 1).2 "sid-a"
      { id := "sid-a", userId := 1, expires := 2000 } (by decide) (by decide)⟩

/-- C10: a successful register answers 201 with a body whose serialized
fields include "Password" mapped to the digest of the submitted plaintext
password: the hash is disclosed to the client. -/
theorem C10_password_in_response (digest : String → String) (db : DB) (nextId : Nat)
    (now : Int) (req : PostUserRequest) (h : ∀ v ∈ db.users, v.name ≠ req.name) :
    ∃ fields, (userRegisterHandler digest db nextId now (some req)).1
        = HandlerResult.ok 201 fields ∧
      fields.lookup "Password" = some (digest req.password) := by
  refine ⟨userJSONFields
      { id := 0, name := req.name, displayName := req.displayName,
        description := req.description, password := digest req.password,
        createdAt := 0, updatedAt := 0 }, ?_, ?_⟩
  · exact congrArg Prod.fst (userRegisterHandler_fresh digest db nextId now req h)
  · rfl

/-- C10 witness at concrete inputs. -/
theorem C10_password_in_response_witness :
    ∃ fields, (userRegisterHandler demoDigest { users := [], sessions := [] } 7 1234
        (some testReq)).1 = HandlerResult.ok 201 fields ∧
      fields.lookup "Password" = some (demoDigest testReq.password) :=
  C10_password_in_response demoDigest { users := [], sessions := [] } 7 1234 testReq
    (by decide)

end Isupipe
